import Mathlib

/-!
Verification development for the Voice_gpt_agent backend
(`backend/app/api/websocket.py` and `backend/app/services/*.py`).

The Python services are shallowly embedded as pure Lean functions:

* external collaborators (the Whisper transcription API, the GPT chat
  completion API, the TTS API, the SQL database commits, the pydub audio
  decoder) are passed in as explicit oracle values/functions, since the
  repository treats them as external ports;
* bytes are `List Nat`, timestamps are `Nat`, and IEEE-754 doubles are
  embedded exactly as dyadic rationals (`Fp`, a mantissa over a power-of-two
  scale) with explicit round-to-nearest-even-at-53-bits addition for the one
  place where float rounding matters
  (`SpeechToTextService._estimate_confidence`); `Fp.toRat` gives the value
  in `ℚ` for the statements;
* human-readable log/error message strings are abstracted away; the
  machine-readable `error_code` of every raised `VoiceAgentException` is
  kept (as `ErrCode`);
* Python's dynamic typing matters in one place: `websocket.py` passes the
  `(text, message_id)` tuple returned by `ChatService.generate_response`
  where a `str` is expected.  A two-constructor dynamic value type `PyVal`
  embeds exactly the string/tuple distinction and the `len` /`.strip()`
  behaviour (`.strip()` on a tuple raises `AttributeError`).
-/

set_option maxRecDepth 4000

deriving instance DecidableEq for Except

/-- Machine-readable `error_code` strings of `VoiceAgentException`s raised in
`backend/app/core/exceptions.py` users, plus a tag for error events that the
websocket layer sends without an `error_code` field. -/
inductive ErrCode where
  | unsupportedFormat      -- "UNSUPPORTED_FORMAT"
  | fileTooLarge           -- "FILE_TOO_LARGE"
  | audioTooLong           -- "AUDIO_TOO_LONG"
  | validationError        -- "VALIDATION_ERROR" (decode failure wrap)
  | transcriptionError     -- "TRANSCRIPTION_ERROR"
  | apiError               -- "API_ERROR"
  | rateLimitExceeded      -- "RATE_LIMIT_EXCEEDED"
  | responseGenerationError -- "RESPONSE_GENERATION_ERROR"
  | synthesisError         -- "SYNTHESIS_ERROR"
  | textTooLong            -- "TEXT_TOO_LONG"
  | emptyText              -- "EMPTY_TEXT"
  | sessionCreationError   -- "SESSION_CREATION_ERROR"
  | sessionNotFound        -- "SESSION_NOT_FOUND"
  | messageAdditionError   -- "MESSAGE_ADDITION_ERROR"
  deriving DecidableEq, Repr

/-- `AudioSettings` from `backend/app/core/config.py` (the fields
`validate_audio` reads). -/
structure AudioSettings where
  maxSizeMb : Nat
  supportedFormats : List String
  deriving DecidableEq, Repr

/-- The defaults from `config.py`: `max_audio_size_mb = 25`,
`supported_audio_formats = "wav,mp3,m4a,webm,mp4"`. -/
def defaultAudioSettings : AudioSettings :=
  { maxSizeMb := 25, supportedFormats := ["wav", "mp3", "m4a", "webm", "mp4"] }

/-- ASCII lower-casing, `str.lower()` for the strings involved (defined via
`List Char` so that it reduces inside the kernel). -/
def lowerStr (s : String) : String := String.mk (s.data.map Char.toLower)

/-- Python `str.strip()`s whitespace classification (ASCII part). -/
def pyIsSpace (c : Char) : Bool :=
  c = ' ' ∨ c = '\t' ∨ c = '\n' ∨ c = '\r' ∨ c = Char.ofNat 11 ∨ c = Char.ofNat 12

/-- Python `str.strip()` on the character list of a string. -/
def stripChars (l : List Char) : List Char :=
  ((l.dropWhile pyIsSpace).reverse.dropWhile pyIsSpace).reverse

/-- `AudioProcessorService.validate_audio` (`audio_processor.py` lines 39-104).

`dataLen` is `len(audio_data)`; the pydub decoder
(`AudioSegment.from_file`) is external and is abstracted as
`decodeMs : Option Nat` — `none` models a decode exception (wrapped by the
generic `except` clause into `VALIDATION_ERROR`), `some d` models a
successfully loaded segment of `d` milliseconds (`len(audio_segment)`).
The size comparison `len(audio_data)/(1024*1024) > max_size_mb` and the
duration comparison `len(audio_segment)/1000 > 300` are exact rational
comparisons, written over `Nat` by clearing denominators. -/
def validateAudio (cfg : AudioSettings) (dataLen : Nat) (format : String)
    (decodeMs : Option Nat) : Except ErrCode Unit :=
  if lowerStr format ∉ cfg.supportedFormats then
    .error .unsupportedFormat
  else if dataLen > cfg.maxSizeMb * 1048576 then
    .error .fileTooLarge
  else
    match decodeMs with
    | none => .error .validationError
    | some durationMs =>
      if durationMs > 300000 then .error .audioTooLong
      else .ok ()

/-- Dynamically typed Python value, as far as the websocket layer needs it:
either a `str` or a 2-tuple of strings (the value
`ChatService.generate_response` returns). -/
inductive PyVal where
  | str (s : String)
  | tup2 (a b : String)
  deriving DecidableEq, Repr

/-- Python `len` on a `PyVal`: code-point count for a `str`, 2 for a 2-tuple. -/
def pyLen : PyVal → Nat
  | .str s => s.length
  | .tup2 _ _ => 2

/-- Python `text.strip()` followed by truthiness, i.e. the value of
`not text.strip()` — except that on a tuple, `.strip()` raises
`AttributeError`, modelled as `none`. -/
def pyStripTruthy : PyVal → Option Bool
  | .str s => some (stripChars s.data ≠ [])
  | .tup2 _ _ => none

/-- `str.split()` + `" ".join(...)`: collapse runs of whitespace. -/
def normSpaces (s : String) : String :=
  String.intercalate " " ((s.split Char.isWhitespace).filter (· ≠ ""))

/-- The abbreviation table of `TextToSpeechService._preprocess_text`. -/
def ttsAbbreviations : List (String × String) :=
  [("AI", "A.I."), ("API", "A.P.I."), ("URL", "U.R.L."), ("HTTP", "H.T.T.P."),
   ("JSON", "J.S.O.N."), ("XML", "X.M.L."), ("SQL", "S.Q.L."),
   ("CPU", "C.P.U."), ("GPU", "G.P.U."), ("RAM", "R.A.M.")]

/-- `TextToSpeechService._preprocess_text` (`text_to_speech.py` lines 135-178). -/
def preprocessText (text : String) : String :=
  let p := normSpaces text
  let p := p.replace "." ". "
  let p := p.replace "!" "! "
  let p := p.replace "?" "? "
  let p := p.replace "," ", "
  let p := p.replace ";" "; "
  let p := p.replace ":" ": "
  let p := ttsAbbreviations.foldl (fun acc ab =>
    let acc := acc.replace (" " ++ ab.1 ++ " ") (" " ++ ab.2 ++ " ")
    let acc := acc.replace (" " ++ ab.1 ++ ".") (" " ++ ab.2 ++ ".")
    acc.replace (" " ++ ab.1 ++ ",") (" " ++ ab.2 ++ ",")) p
  normSpaces p

/-- `self.available_voices` of `TextToSpeechService`. -/
def availableVoices : List String :=
  ["alloy", "echo", "fable", "onyx", "nova", "shimmer"]

/-- The voice actually used by `TextToSpeechService.synthesize_speech`
(lines 62-69): `voice = voice or default`, then substitute the configured
default for anything outside `available_voices`.  `defVoice` is
`self.openai_settings.tts_voice`.  `some ""` is falsy in Python, hence also
falls back to the default. -/
def resolveVoice (defVoice : String) (voice : Option String) : String :=
  let v := match voice with
    | none => defVoice
    | some s => if s = "" then defVoice else s
  if v ∉ availableVoices then defVoice else v

/-- The validation prefix of `TextToSpeechService.synthesize_speech`
(lines 61-88), up to but not including the TTS API call: resolve the voice,
check `len(text) > 4096`, check `not text.strip()` (which raises
`AttributeError` — wrapped by the generic `except` into `SYNTHESIS_ERROR` —
when `text` is a tuple), and preprocess the text.  Returns the voice and
processed text handed to the API. -/
def synthChecks (defVoice : String) (text : PyVal) (voice : Option String) :
    Except ErrCode (String × String) :=
  let v := resolveVoice defVoice voice
  if pyLen text > 4096 then .error .textTooLong
  else
    match pyStripTruthy text with
    | none => .error .synthesisError
    | some false => .error .emptyText
    | some true =>
      match text with
      | .str s => .ok (v, preprocessText s)
      | .tup2 _ _ => .error .synthesisError

/-- `TextToSpeechService.synthesize_speech` (lines 41-133).  `port` is the
external OpenAI TTS call, a function of the voice and the processed text;
its failure codes are the codes `synthesize_speech` wraps them into
(`RATE_LIMIT_EXCEEDED`, `API_ERROR`, `SYNTHESIS_ERROR`).  The result keeps
the voice actually used (the `voice` local, logged and sent to the API)
next to the audio bytes. -/
def synthesizeSpeech (defVoice : String)
    (port : String → String → Except ErrCode (List Nat))
    (text : PyVal) (voice : Option String) :
    Except ErrCode (String × List Nat) :=
  match synthChecks defVoice text voice with
  | .error e => .error e
  | .ok (v, processed) =>
    match port v processed with
    | .error e => .error e
    | .ok audio => .ok (v, audio)


/-- The result dictionary of `SpeechToTextService.transcribe_audio`, as far
as `process_complete_audio` reads it (`text`, `confidence`, `language`).
The confidence is an IEEE double, embedded as its exact rational value. -/
structure Transcr where
  text : String
  confidence : ℚ
  language : String
  deriving DecidableEq, Repr

/-- Outbound websocket events (`backend/app/api/websocket.py`), keyed by
their `type` field.  Free-text `message` payloads are abstracted away;
`errorEvent` keeps the optional `error_code` field (`none` for the error
messages the handlers send without one). -/
inductive Event where
  | sessionInitialized (sessionId : String)
  | audioChunkReceived (chunkNumber : Nat) (isFinal : Bool)
  | transcriptionStarted
  | transcriptionCompleted (text : String) (confidence : ℚ) (language : String)
  | responseGenerationStarted
  | textResponse (payload : PyVal)
  | audioGenerationStarted
  | audioResponse (audio : List Nat) (format : String)
  | interactionCompleted
  | pong
  | errorEvent (code : Option ErrCode)
  deriving DecidableEq, Repr

/-- The three external ports a streaming turn can call. -/
inductive PortName where
  | transcription
  | generation
  | synthesis
  deriving DecidableEq, Repr

/-- Oracles for the external calls made during one streaming turn:
the pydub decode used by validation, the transcription result, the
`ChatService.generate_response` outcome — note that per its definition
(`chat_service.py` lines 49-140) a success is the *tuple*
`(assistant_response, assistant_message_id)` — and the TTS API call. -/
structure TurnOracles where
  decodeMs : Option Nat
  stt : Except ErrCode Transcr
  chat : Except ErrCode (String × String)
  ttsPort : String → String → Except ErrCode (List Nat)

/-- `process_complete_audio` (`websocket.py` lines 288-373): the full staged
streaming turn.  Besides the outbound events (in emission order) it returns
the list of external ports actually invoked.  Faithful details:

* `combined_audio` empty → early `return`, no events;
* validation runs before any port call and before any staged event;
* `response_text` is the raw tuple returned by
  `ChatService.generate_response`; it is embedded in the `text_response`
  payload and passed on to `synthesize_speech` (where `.strip()` on it
  raises `AttributeError`, so the TTS port itself is only invoked if the
  value is a genuine string);
* any `VoiceAgentException` aborts the remaining stages and is reported as
  one `error` event carrying its `error_code`. -/
def processCompleteAudio (cfg : AudioSettings) (defVoice : String)
    (combined : List Nat) (O : TurnOracles) : List Event × List PortName :=
  if combined = [] then ([], [])
  else
    match validateAudio cfg combined.length "wav" O.decodeMs with
    | .error c => ([.errorEvent (some c)], [])
    | .ok _ =>
      match O.stt with
      | .error c => ([.transcriptionStarted, .errorEvent (some c)], [.transcription])
      | .ok tr =>
        match O.chat with
        | .error c =>
          ([.transcriptionStarted,
            .transcriptionCompleted tr.text tr.confidence tr.language,
            .responseGenerationStarted, .errorEvent (some c)],
           [.transcription, .generation])
        | .ok (reply, mid) =>
          let pre : List Event :=
            [.transcriptionStarted,
             .transcriptionCompleted tr.text tr.confidence tr.language,
             .responseGenerationStarted,
             .textResponse (.tup2 reply mid),
             .audioGenerationStarted]
          let synthTrace : List PortName :=
            match synthChecks defVoice (.tup2 reply mid) none with
            | .ok _ => [.synthesis]
            | .error _ => []
          match synthesizeSpeech defVoice O.ttsPort (.tup2 reply mid) none with
          | .error c =>
            (pre ++ [.errorEvent (some c)],
             [.transcription, .generation] ++ synthTrace)
          | .ok (_, audio) =>
            (pre ++ [.audioResponse audio "mp3", .interactionCompleted],
             [.transcription, .generation] ++ synthTrace)

/-- The `audio_data` field of an inbound `audio_chunk` message: absent or
falsy (`missing`), a string that `base64.b64decode` rejects (`malformed`),
or one that decodes to `bs` (possibly empty, e.g. `"\n"` decodes to zero
bytes). -/
inductive ChunkPayload where
  | missing
  | malformed
  | bytes (bs : List Nat)
  deriving DecidableEq, Repr

/-- `handle_audio_chunk` (`websocket.py` lines 187-239).  Returns the new
accumulator and the events sent.  Faithful details:

* missing payload → one `error` event (no `error_code`), no append;
* a decode exception is caught by the handler's `except` → one `error`
  event, no append;
* otherwise append; then, if `is_final` and a session is bound, run
  `process_complete_audio` on the joined accumulator and `clear()` it;
* the acknowledgment is sent *after* the optional flush-and-clear, so its
  `chunk_number = len(audio_chunks)` is 0 in that case. -/
def handleAudioChunk (cfg : AudioSettings) (defVoice : String)
    (chunks : List (List Nat)) (payload : ChunkPayload) (isFinal : Bool)
    (sessionBound : Bool) (O : TurnOracles) :
    List (List Nat) × List Event :=
  match payload with
  | .missing => (chunks, [.errorEvent none])
  | .malformed => (chunks, [.errorEvent none])
  | .bytes bs =>
    let chunks1 := chunks ++ [bs]
    if isFinal && sessionBound then
      let evs := (processCompleteAudio cfg defVoice chunks1.flatten O).1
      ([], evs ++ [.audioChunkReceived 0 isFinal])
    else
      (chunks1, [.audioChunkReceived chunks1.length isFinal])

/-- `handle_text_message` (`websocket.py` lines 242-285).  Missing/empty
text or an unbound session → one `error` event; otherwise the
`generate_response` outcome is sent as `text_response` (the raw tuple), and
if `include_audio` was requested, `synthesize_speech` runs on that tuple
with the message's voice (default literal `"alloy"`).  All exceptions are
caught by the handler's `except` into one `error` event without a code. -/
def handleTextMessage (defVoice : String) (text : Option String)
    (includeAudio : Bool) (voice : Option String) (sessionBound : Bool)
    (chat : Except ErrCode (String × String))
    (ttsPort : String → String → Except ErrCode (List Nat)) : List Event :=
  if text = none ∨ text = some "" ∨ sessionBound = false then
    [.errorEvent none]
  else
    match chat with
    | .error _ => [.errorEvent none]
    | .ok (reply, mid) =>
      if includeAudio then
        match synthesizeSpeech defVoice ttsPort (.tup2 reply mid)
            (some (voice.getD "alloy")) with
        | .error _ => [.textResponse (.tup2 reply mid), .errorEvent none]
        | .ok (_, audio) =>
          [.textResponse (.tup2 reply mid), .audioResponse audio "mp3"]
      else
        [.textResponse (.tup2 reply mid)]

/-- Per-connection mutable state of `websocket_endpoint`: the `session_id`
local and the `audio_chunks` accumulator. -/
structure ConnState where
  session : Option String
  chunks : List (List Nat)
  deriving DecidableEq, Repr

/-- One parsed inbound websocket message, by `type`. -/
inductive InMsg where
  | initSession
  | audioChunk (payload : ChunkPayload) (isFinal : Bool)
  | textMessage (text : Option String) (includeAudio : Bool) (voice : Option String)
  | endAudio
  | ping
  | unknownType (t : String)

/-- Oracles for one iteration of the receive loop: session creation
(`SessionManagerService.create_session`) plus the turn oracles. -/
structure WsOracles where
  createSession : Except ErrCode String
  turn : TurnOracles

/-- One iteration of the `websocket_endpoint` receive loop
(`websocket.py` lines 100-169), dispatching one inbound message: the new
connection state and the events sent back on this connection.  A
`create_session` failure propagates to the outer `except Exception`, which
sends one `error` event (without a code) and disconnects.  `end_audio`
flushes only when the accumulator and the bound session are both truthy,
and clears the accumulator in every case. -/
def wsStep (cfg : AudioSettings) (defVoice : String) (st : ConnState)
    (m : InMsg) (O : WsOracles) : ConnState × List Event :=
  match m with
  | .initSession =>
    match O.createSession with
    | .ok sid => ({ st with session := some sid }, [.sessionInitialized sid])
    | .error _ => (st, [.errorEvent none])
  | .audioChunk p f =>
    let r := handleAudioChunk cfg defVoice st.chunks p f st.session.isSome O.turn
    ({ st with chunks := r.1 }, r.2)
  | .textMessage t ia v =>
    (st, handleTextMessage defVoice t ia v st.session.isSome O.turn.chat O.turn.ttsPort)
  | .endAudio =>
    let evs :=
      if st.chunks ≠ [] ∧ st.session.isSome then
        (processCompleteAudio cfg defVoice st.chunks.flatten O.turn).1
      else []
    ({ st with chunks := [] }, evs)
  | .ping => (st, [.pong])
  | .unknownType _ => (st, [.errorEvent none])

/-- The `WebSocketManager` registry (`websocket.py` lines 38-78):
`active_connections` keys (the sockets themselves are irrelevant) and the
`session_connections` dict `session_id -> connection_id`, kept as an
insertion-ordered association list exactly like a Python dict. -/
structure Registry where
  active : List String
  sessConn : List (String × String)
  deriving DecidableEq, Repr

/-- Python dict assignment `d[k] = v`: overwrite in place if the key exists,
else append. -/
def dictSet (k v : String) (l : List (String × String)) :
    List (String × String) :=
  if k ∈ l.map Prod.fst then
    l.map (fun p => if p.1 = k then (k, v) else p)
  else l ++ [(k, v)]

/-- Registry operations the websocket endpoint performs:
`connect` (`WebSocketManager.connect`), `initSession` (the
`initialize_session` branch of `websocket_endpoint`: a freshly created
session id is associated to the connection via `associate_session`), and
`disconnect` (`WebSocketManager.disconnect`: drop the connection and every
`session -> connection` entry pointing at it). -/
inductive RegOp where
  | connect (c : String)
  | initSession (s c : String)
  | disconnect (c : String)

/-- Apply one registry operation (`websocket.py` lines 45-61 and 72-74). -/
def applyOp (r : Registry) : RegOp → Registry
  | .connect c =>
    { r with active := if c ∈ r.active then r.active else r.active ++ [c] }
  | .initSession s c => { r with sessConn := dictSet s c r.sessConn }
  | .disconnect c =>
    { active := r.active.filter (· ≠ c),
      sessConn := r.sessConn.filter (fun p => p.2 ≠ c) }

/-- The registry after a sequence of operations, starting from the empty
registry built at module load. -/
def runOps (ops : List RegOp) : Registry := ops.foldl applyOp ⟨[], []⟩

/-- Message roles (`MessageType` in `models/schemas.py`). -/
inductive Role where
  | user
  | assistant
  | system
  deriving DecidableEq, Repr

/-- A row of the `messages` table (`models/database.py`), the fields the
claims touch.  Timestamps (`datetime.utcnow()`) are embedded as `Nat`. -/
structure StoredMsg where
  id : String
  session : String
  role : Role
  content : String
  timestamp : Nat
  deriving DecidableEq, Repr

/-- The conversation store: the `conversations` table (ids only) and the
`messages` table in insertion order. -/
structure Store where
  sessions : List String
  messages : List StoredMsg
  deriving DecidableEq, Repr

/-- `SessionManagerService.add_message` (`session_manager.py` lines
180-255): verify the session exists (else `SESSION_NOT_FOUND`), then insert
the message and commit in one transaction.  `commitOk` is the external
database's behaviour for this commit; a failed commit leaves the store
unchanged and is wrapped into `MESSAGE_ADDITION_ERROR`. -/
def addMessage (st : Store) (sid : String) (role : Role) (content : String)
    (mid : String) (ts : Nat) (commitOk : Bool) : Except ErrCode Store :=
  if sid ∉ st.sessions then .error .sessionNotFound
  else if commitOk then
    .ok { st with messages := st.messages ++ [⟨mid, sid, role, content, ts⟩] }
  else .error .messageAdditionError

/-- `SessionSettings` from `config.py` (`max_conversation_history = 10`). -/
structure SessionSettings where
  maxConversationHistory : Nat
  deriving DecidableEq, Repr

/-- Descending-timestamp comparison used by the history query
(`order_by(Message.timestamp.desc())`). -/
def tsDesc (a b : StoredMsg) : Prop := b.timestamp ≤ a.timestamp

instance : DecidableRel tsDesc := fun _ _ => Nat.decLe _ _

instance : IsTotal StoredMsg tsDesc :=
  ⟨fun a b => Nat.le_total b.timestamp a.timestamp⟩

instance : IsTrans StoredMsg tsDesc :=
  ⟨fun _ _ _ h1 h2 => Nat.le_trans h2 h1⟩

/-- The messages of one session, in insertion order
(`where(Message.session_id == session_id)`). -/
def sessionMessages (st : Store) (sid : String) : List StoredMsg :=
  st.messages.filter (fun m => m.session = sid)

/-- `limit = limit or self.session_settings.max_conversation_history`:
`None` and `0`, both falsy in Python, become the configured default. -/
def effLimit (cfg : SessionSettings) (limit : Option Nat) : Nat :=
  match limit with
  | none => cfg.maxConversationHistory
  | some n => if n = 0 then cfg.maxConversationHistory else n

/-- `SessionManagerService.get_conversation_history` (`session_manager.py`
lines 257-294): select the session's messages ordered by timestamp
descending limited to `limit or default`, then return them `reversed`.
SQL leaves the relative order of equal timestamps open; the embedding
fixes it with the stable `insertionSort`. -/
def getConversationHistory (cfg : SessionSettings) (st : Store)
    (sid : String) (limit : Option Nat) : List StoredMsg :=
  ((List.insertionSort tsDesc (sessionMessages st sid)).take
    (effLimit cfg limit)).reverse

/-- One chat-completion prompt entry (`{"role": ..., "content": ...}`). -/
structure PromptMsg where
  role : String
  content : String
  deriving DecidableEq, Repr

/-- `ChatService._get_system_prompt`; its literal text is irrelevant to
every claim and abstracted to a marker string. -/
def systemPrompt : String := "voice-agent-system-prompt"

/-- Python slice `l[-n:]` for `n = max_conversation_history` (note
`l[-0:] = l`). -/
def takeLast {α : Type} (n : Nat) (l : List α) : List α :=
  if n = 0 then l else l.drop (l.length - n)

/-- The prompt list built by `ChatService.generate_response` (lines 76-90):
system prompt, then the bounded history (user messages as `"user"`,
everything else as `"assistant"`), then the current message.  The
`context` parameter is `None` on every call site the claims concern
(`websocket.py`), so the optional context block (lines 93-99) is omitted. -/
def buildMessages (cfg : SessionSettings) (history : List StoredMsg)
    (message : String) : List PromptMsg :=
  [⟨"system", systemPrompt⟩] ++
    (takeLast cfg.maxConversationHistory history).map
      (fun m => ⟨if m.role = Role.user then "user" else "assistant", m.content⟩) ++
    [⟨"user", message⟩]

/-- Failure of the external chat-completion call: an exception whose string
contains `"rate_limit"`, or anything else. -/
inductive GenFail where
  | rateLimited
  | other
  deriving DecidableEq, Repr

/-- `ChatService.generate_response` (`chat_service.py` lines 49-153):
read the bounded history, build the prompt, call the GPT port, then persist
the user message and the assistant message with two separate
`add_message` calls (two separate database transactions).  Every exception
is wrapped into `RATE_LIMIT_EXCEEDED` (if its text mentions `rate_limit`)
or `RESPONSE_GENERATION_ERROR`; an exception raised after the first
`add_message` commit leaves that commit in place.  Returns the (possibly
updated) store and the call's outcome — on success the *tuple*
`(assistant_response, assistant_message_id)`.  `userMsgId`/`asstMsgId` and
`ts1`/`ts2` stand for the generated uuids and `utcnow()` values;
`commitUser`/`commitAsst` are the database's behaviour on the two commits. -/
def generateResponse (cfg : SessionSettings) (st : Store)
    (message sid : String) (gpt : List PromptMsg → Except GenFail String)
    (userMsgId asstMsgId : String) (ts1 ts2 : Nat)
    (commitUser commitAsst : Bool) : Store × Except ErrCode (String × String) :=
  match gpt (buildMessages cfg (getConversationHistory cfg st sid none) message) with
  | .error .rateLimited => (st, .error .rateLimitExceeded)
  | .error .other => (st, .error .responseGenerationError)
  | .ok reply =>
    match addMessage st sid .user message userMsgId ts1 commitUser with
    | .error _ => (st, .error .responseGenerationError)
    | .ok st1 =>
      match addMessage st1 sid .assistant reply asstMsgId ts2 commitAsst with
      | .error _ => (st1, .error .responseGenerationError)
      | .ok st2 => (st2, .ok (reply, asstMsgId))

/-- Floor of base-2 logarithm, fuel-based so that it reduces in the kernel
(the fuel bounds the recursion depth; 64 covers every mantissa magnitude a
binary64 computation can produce here). -/
def log2f : Nat -> Nat -> Nat
  | 0, _ => 0
  | f + 1, n => if 2 <= n then log2f f (n / 2) + 1 else 0

/-- A dyadic rational `m / 2 ^ e`: the exact value of an IEEE-754 binary64
number (every finite double is of this form).  Not kept in canonical form;
`Fp.toRat` gives the represented value. -/
structure Fp where
  m : Int
  e : Nat
  deriving DecidableEq, Repr

/-- The rational value represented by a dyadic number. -/
def Fp.toRat (x : Fp) : Rat := Rat.divInt x.m ((2 ^ x.e : Nat) : Int)

/-- The mantissa of `x` rescaled to exponent `e` (for `e >= x.e`). -/
def Fp.mAt (x : Fp) (e : Nat) : Int := x.m * ((2 ^ (e - x.e) : Nat) : Int)

/-- Exact sum of two dyadic rationals (at the finer of the two scales). -/
def Fp.addExact (a b : Fp) : Fp :=
  let e := max a.e b.e
  ⟨a.mAt e + b.mAt e, e⟩

/-- Value comparison of dyadic rationals. -/
def fpLt (a b : Fp) : Bool :=
  a.mAt (max a.e b.e) < b.mAt (max a.e b.e)

/-- Round a dyadic rational to 53 significant binary digits, nearest, ties
to even: IEEE-754 binary64 rounding for results in the normal range (no
overflow/underflow handling — every value arising below lies well inside
it).  A mantissa of at most 53 bits is returned unchanged; otherwise the
excess `s` low bits are rounded off. -/
def rnd53 (x : Fp) : Fp :=
  if x.m = 0 then ⟨0, 0⟩
  else
    let n := x.m.natAbs
    let b := log2f 64 n
    if b + 1 <= 53 then x
    else
      let s := b + 1 - 53
      let q := n / 2 ^ s
      let r := n % 2 ^ s
      let half := 2 ^ (s - 1)
      let q1 := if r < half then q
        else if half < r then q + 1
        else if q % 2 = 0 then q else q + 1
      let sgn : Int → Int := fun v => if x.m < 0 then -v else v
      if s <= x.e then ⟨sgn q1, x.e - s⟩
      else ⟨sgn (q1 * 2 ^ (s - x.e)), 0⟩

/-- IEEE-754 binary64 addition on exactly represented doubles. -/
def fadd (a b : Fp) : Fp := rnd53 (a.addExact b)

/-- The exact value of the double literal `0.5`. -/
def dbl05 : Fp := ⟨1, 1⟩

/-- The exact value of the double literal `0.1`
(`3602879701896397 * 2 ^ -55`). -/
def dbl01 : Fp := ⟨3602879701896397, 55⟩

/-- The exact value of the double literal `0.2`
(`3602879701896397 * 2 ^ -54`). -/
def dbl02 : Fp := ⟨3602879701896397, 54⟩

/-- The exact value of the double literal `0.01`
(`5764607523034235 * 2 ^ -59`). -/
def dbl001 : Fp := ⟨5764607523034235, 59⟩

/-- The double `0.0` (also Python's int `0`, the `.get` default). -/
def fpZero : Fp := ⟨0, 0⟩

/-- The double `1.0`. -/
def fpOne : Fp := ⟨1, 0⟩

/-- CPython `min(a, b)`: `b` if `b < a` else `a`. -/
def fpMin (a b : Fp) : Fp := if fpLt b a then b else a

/-- CPython `max(a, b)`: `b` if `a < b` else `a`. -/
def fpMax (a b : Fp) : Fp := if fpLt a b then b else a

/-- The low-confidence marker phrases of
`SpeechToTextService._estimate_confidence`. -/
def lowConfMarkers : List String := ["[inaudible]", "[unclear]", "..."]

/-- Python `needle in haystack` on character lists. -/
def containsSub (needle : List Char) : List Char -> Bool
  | [] => needle.isEmpty
  | c :: rest => needle.isPrefixOf (c :: rest) || containsSub needle rest

/-- `any(phrase in text.lower() for phrase in [...])`. -/
def hasMarker (text : String) : Bool :=
  lowConfMarkers.any (fun p => containsSub p.data (lowerStr text).data)

/-- `SpeechToTextService._estimate_confidence` (`speech_to_text.py` lines
110-139), with Python float arithmetic embedded exactly: each `+=` is a
binary64 addition (`fadd`), the literals are the exact double values of
`0.5`, `0.2`, `0.1`, `0.01`, and the final `min(1.0, max(0.0, _))` is
CPython `min`/`max` (comparisons on doubles are exact value comparisons).
`rmsEnergy`/`silenceRatio` are `audio_features.get("rms_energy", 0)` and
`.get("silence_ratio", 1.0)` — `none` models an absent key. -/
def estimateConfidence (text : String) (rmsEnergy : Option Fp)
    (silenceRatio : Option Fp) : Fp :=
  let c := dbl05
  let c := if stripChars text.data ≠ [] then fadd c dbl02 else c
  let c := if ¬hasMarker text then fadd c dbl01 else c
  let c := if fpLt dbl001 (rmsEnergy.getD fpZero) then fadd c dbl01 else c
  let c := if fpLt (silenceRatio.getD fpOne) dbl05 then fadd c dbl01 else c
  fpMin fpOne (fpMax fpZero c)


/-- Sanity check of the binary64 model against CPython: `0.5 + 0.2`
evaluates to the double 0.7 (= 3152519739159347 * 2 ^ -52, here written at
scale 2 ^ -53), and the full sum `0.5+0.2+0.1+0.1+0.1` evaluates to
0.9999999999999999 = 9007199254740991 * 2 ^ -53, exactly as Python floats
do. -/
theorem fadd_chain_matches_cpython :
    fadd dbl05 dbl02 = (⟨6305039478318694, 53⟩ : Fp) ∧
    fadd (fadd dbl05 dbl02) dbl01 = (⟨7205759403792793, 53⟩ : Fp) ∧
    fadd (fadd (fadd (fadd dbl05 dbl02) dbl01) dbl01) dbl01 =
      (⟨9007199254740991, 53⟩ : Fp) := by
  refine ⟨?_, ?_, ?_⟩ <;> decide

/-- `lowerStr` on the literal `"wav"` (the format hard-coded by
`process_complete_audio`). -/
theorem lowerStr_wav : lowerStr "wav" = "wav" := by decide

/-- C10: `validate_audio` checks format support, then size, then
decodability, then duration, in that fixed order — so an unsupported
declared format always yields `UNSUPPORTED_FORMAT`, whatever the size or
duration; and any input that passes validation decoded successfully with a
duration of at most 300000 ms, i.e. at most 300 seconds. -/
theorem c10_validation_order (cfg : AudioSettings) (dataLen : Nat)
    (format : String) (decodeMs : Option Nat) :
    (lowerStr format ∉ cfg.supportedFormats →
      validateAudio cfg dataLen format decodeMs = .error .unsupportedFormat) ∧
    (validateAudio cfg dataLen format decodeMs = .ok () →
      ∃ d, decodeMs = some d ∧ d ≤ 300000) := by
  constructor
  · intro h
    simp [validateAudio, h]
  · intro h
    unfold validateAudio at h
    split at h
    · exact absurd h (by simp)
    · split at h
      · exact absurd h (by simp)
      · cases decodeMs with
        | none => simp at h
        | some d =>
          refine ⟨d, rfl, ?_⟩
          by_contra hd
          have hlt : 300000 < d := Nat.lt_of_not_le hd
          simp [hlt] at h

/-- C10 witness: an unsupported format that is also oversized and overlong
still fails with `UNSUPPORTED_FORMAT`; a small valid wav passes and its
decoded duration is within 300 s. -/
theorem c10_validation_order_witness :
    validateAudio defaultAudioSettings 27262977 "ogg" (some 999999999) =
        .error .unsupportedFormat ∧
    ∃ d, (some 1000 : Option Nat) = some d ∧ d ≤ 300000 :=
  ⟨(c10_validation_order defaultAudioSettings 27262977 "ogg"
      (some 999999999)).1 (by decide),
   (c10_validation_order defaultAudioSettings 5 "wav" (some 1000)).2
      (by decide)⟩

/-- C7: for a streaming turn (`process_complete_audio` validates with the
hard-coded format `"wav"`; the hypothesis records that `"wav"` is among the
configured supported formats, as in the default configuration), any
accumulated audio whose byte length exceeds `max_size_mb * 1024 * 1024`
fails validation with the oversized kind `FILE_TOO_LARGE`, the only event
sent is that one typed error, and no port (in particular the Transcription
Port) is invoked. -/
theorem c7_oversized_fails_before_ports (cfg : AudioSettings)
    (defVoice : String) (combined : List Nat) (O : TurnOracles)
    (hwav : "wav" ∈ cfg.supportedFormats)
    (hsize : combined.length > cfg.maxSizeMb * 1048576) :
    processCompleteAudio cfg defVoice combined O =
      ([.errorEvent (some .fileTooLarge)], []) := by
  have hne : combined ≠ [] := by
    intro hnil
    rw [hnil] at hsize
    simp at hsize
  have hv : validateAudio cfg combined.length "wav" O.decodeMs =
      .error .fileTooLarge := by
    unfold validateAudio
    rw [lowerStr_wav, if_neg (not_not_intro hwav), if_pos hsize]
  unfold processCompleteAudio
  rw [if_neg hne, hv]

/-- C7 witness: with a configuration whose size limit is 0 MB, a one-byte
accumulated audio is oversized: the turn reports `FILE_TOO_LARGE` and
invokes no port. -/
theorem c7_oversized_fails_before_ports_witness :
    processCompleteAudio ⟨0, ["wav"]⟩ "alloy" [7]
      ⟨some 1000, .error .transcriptionError, .error .responseGenerationError,
        fun _ _ => .error .apiError⟩ =
      ([.errorEvent (some .fileTooLarge)], []) :=
  c7_oversized_fails_before_ports ⟨0, ["wav"]⟩ "alloy" [7] _
    (by decide) (by decide)

/-- `resolveVoice` yields the configured default on any unknown voice
identifier (helper: the unknown-voice request and the no-voice request
resolve identically). -/
theorem resolveVoice_unknown (defVoice : String) (v : String)
    (hv : v ∉ availableVoices) :
    resolveVoice defVoice (some v) = resolveVoice defVoice none := by
  by_cases h0 : v = ""
  · subst h0
    simp [resolveVoice]
  · simp [resolveVoice, h0, hv]

/-- C8: a synthesis request with a voice identifier outside the fixed
enumerated set behaves exactly like a request with no voice at all — the
configured default voice is substituted and the (non-)failure of the call
is unchanged, so the unknown voice never fails the turn; and a voice in
the enumerated set is resolved to itself and, when the pre-call checks
pass, is the voice handed to the TTS port. -/
theorem c8_unknown_voice_substitutes_default (defVoice : String)
    (port : String → String → Except ErrCode (List Nat)) (text : PyVal)
    (v : String) :
    (v ∉ availableVoices →
      synthesizeSpeech defVoice port text (some v) =
        synthesizeSpeech defVoice port text none) ∧
    (v ∈ availableVoices →
      resolveVoice defVoice (some v) = v ∧
      ∀ r, synthChecks defVoice text (some v) = .ok r → r.1 = v) := by
  constructor
  · intro hv
    unfold synthesizeSpeech synthChecks
    rw [resolveVoice_unknown defVoice v hv]
  · intro hv
    have hne : v ≠ "" := by
      intro h0
      rw [h0] at hv
      exact absurd hv (by decide)
    have hres : resolveVoice defVoice (some v) = v := by
      simp [resolveVoice, hne, hv]
    refine ⟨hres, ?_⟩
    intro r hr
    unfold synthChecks at hr
    rw [hres] at hr
    split at hr
    · exact absurd hr (by simp)
    · split at hr
      · exact absurd hr (by simp)
      · exact absurd hr (by simp)
      · split at hr
        · have hp := Except.ok.inj hr
          rw [← hp]
        · exact absurd hr (by simp)

/-- C8 witness: the voice `"nonexistent"` is substituted by the default
(the call equals the voiceless call), while the known voice `"echo"` is
kept and handed to the port. -/
theorem c8_unknown_voice_substitutes_default_witness :
    (synthesizeSpeech "alloy" (fun _ _ => .ok [1]) (.str "hello")
        (some "nonexistent") =
      synthesizeSpeech "alloy" (fun _ _ => .ok [1]) (.str "hello") none) ∧
    (resolveVoice "alloy" (some "echo") = "echo" ∧
      ∀ r, synthChecks "alloy" (.str "hello") (some "echo") = .ok r →
        r.1 = "echo") :=
  ⟨(c8_unknown_voice_substitutes_default "alloy" (fun _ _ => .ok [1])
      (.str "hello") "nonexistent").1 (by decide),
   (c8_unknown_voice_substitutes_default "alloy" (fun _ _ => .ok [1])
      (.str "hello") "echo").2 (by decide)⟩

/-- C1 (code bug): a streaming turn in which validation, transcription and
response generation all succeed still never completes.  `websocket.py`
uses the return value of `ChatService.generate_response` — the tuple
`(assistant_response, assistant_message_id)`, per that method's signature
and its use in `endpoints.py` — directly as the reply text: the
`text_response` event carries the tuple, and `synthesize_speech` receives
the tuple, whose `.strip()` raises `AttributeError`, wrapped into a
`SYNTHESIS_ERROR` error event.  So after `audio_generation_started` the
turn always aborts with one typed error: `audio_response` and
`interaction_completed` are unreachable, and the TTS port is never
invoked, contradicting the specified full staged sequence. -/
theorem c1_streaming_turn_never_completes :
    processCompleteAudio defaultAudioSettings "alloy" [1]
      ⟨some 1000, .ok ⟨"hi", 1, "en"⟩, .ok ("hello there", "mid-1"),
        fun _ _ => .ok [7]⟩ =
      ([.transcriptionStarted, .transcriptionCompleted "hi" 1 "en",
        .responseGenerationStarted,
        .textResponse (.tup2 "hello there" "mid-1"),
        .audioGenerationStarted, .errorEvent (some .synthesisError)],
       [.transcription, .generation]) ∧
    Event.interactionCompleted ∉
      (processCompleteAudio defaultAudioSettings "alloy" [1]
        ⟨some 1000, .ok ⟨"hi", 1, "en"⟩, .ok ("hello there", "mid-1"),
          fun _ _ => .ok [7]⟩).1 := by
  constructor
  · rfl
  · decide

/-- A streaming turn sends no event at all exactly when the joined audio is
empty (the early `return` of `process_complete_audio`); otherwise it sends
at least one event (an error, or the staged sequence). -/
theorem processCompleteAudio_events_eq_nil (cfg : AudioSettings)
    (defVoice : String) (combined : List Nat) (O : TurnOracles) :
    (processCompleteAudio cfg defVoice combined O).1 = [] ↔ combined = [] := by
  constructor
  · intro h
    by_contra hne
    unfold processCompleteAudio at h
    rw [if_neg hne] at h
    split at h
    · simp at h
    · split at h
      · simp at h
      · split at h
        · simp at h
        · split at h
          · split at h <;> simp at h
          · split at h <;> simp at h
  · intro h
    rw [h]
    rfl

/-- `handle_audio_chunk` always sends at least one event (an error or an
acknowledgment). -/
theorem handleAudioChunk_events_ne_nil (cfg : AudioSettings)
    (defVoice : String) (chunks : List (List Nat)) (payload : ChunkPayload)
    (isFinal : Bool) (bound : Bool) (O : TurnOracles) :
    (handleAudioChunk cfg defVoice chunks payload isFinal bound O).2 ≠ [] := by
  cases payload with
  | missing => simp [handleAudioChunk]
  | malformed => simp [handleAudioChunk]
  | bytes bs =>
    by_cases h : (isFinal && bound) = true
    · simp [handleAudioChunk, h]
    · simp [handleAudioChunk, h]

/-- `handle_text_message` always sends at least one event. -/
theorem handleTextMessage_events_ne_nil (defVoice : String)
    (text : Option String) (includeAudio : Bool) (voice : Option String)
    (bound : Bool) (chat : Except ErrCode (String × String))
    (ttsPort : String → String → Except ErrCode (List Nat)) :
    handleTextMessage defVoice text includeAudio voice bound chat ttsPort
      ≠ [] := by
  unfold handleTextMessage
  split
  · simp
  · split
    · simp
    · split
      · split <;> simp
      · simp

/-- C2 counterexample: an `end_audio` message on a connection with no bound
session (and an empty accumulator) produces no reply at all — zero
outcomes, not the claimed exactly one. -/
theorem c2_end_audio_without_audio_gets_no_reply :
    (wsStep defaultAudioSettings "alloy" ⟨none, []⟩ .endAudio
      ⟨.ok "sid-1", ⟨some 1000, .error .transcriptionError,
        .error .responseGenerationError, fun _ _ => .error .apiError⟩⟩).2
      = [] := by
  rfl

/-- C2 amended: every inbound message is answered with at least one message
over the same connection (an ack, a result with its staged events, or a
typed error), with exactly one exception: `end_audio` when no session is
bound or the accumulated audio bytes are empty, which produces no reply at
all.  (A final flushed `audio_chunk` additionally follows its turn events
with an ack, so outcomes are "at least one", not "exactly one".) -/
theorem c2_every_message_answered_except_empty_end_audio
    (cfg : AudioSettings) (defVoice : String) (st : ConnState) (m : InMsg)
    (O : WsOracles) :
    (wsStep cfg defVoice st m O).2 = [] ↔
      m = .endAudio ∧ (st.session = none ∨ st.chunks.flatten = []) := by
  cases m with
  | initSession =>
    cases hc : O.createSession <;> simp [wsStep, hc]
  | audioChunk p f =>
    simp [wsStep, handleAudioChunk_events_ne_nil cfg defVoice st.chunks p f
      st.session.isSome O.turn]
  | textMessage t ia v =>
    simp [wsStep, handleTextMessage_events_ne_nil defVoice t ia v
      st.session.isSome O.turn.chat O.turn.ttsPort]
  | endAudio =>
    simp only [wsStep]
    by_cases h : st.chunks ≠ [] ∧ st.session.isSome
    · rw [if_pos h]
      rw [processCompleteAudio_events_eq_nil]
      constructor
      · intro hf
        exact ⟨by trivial, Or.inr hf⟩
      · rintro ⟨-, hor⟩
        rcases hor with hnone | hflat
        · rw [hnone] at h
          simp at h
        · exact hflat
    · rw [if_neg h]
      rcases not_and_or.mp h with hch | hsess
      · have hch' : st.chunks = [] := not_not.mp hch
        simp [hch']
      · have hn : st.session = none := Option.not_isSome_iff_eq_none.mp hsess
        simp [hn]
  | ping => simp [wsStep]
  | unknownType t => simp [wsStep]

/-- C6 counterexample: on a bound session, a first non-final chunk is acked
with `chunk_number = 1`, but a second, final chunk — which flushes the turn
(here the turn fails at validation since the decode oracle fails; any turn
outcome gives the same ack) and clears the accumulator before the ack is
built — is acked with `chunk_number = 0`: the running count would be 2, and
the consecutive acks 1, 0 are not strictly increasing. -/
theorem c6_final_flush_resets_ack_counterexample :
    handleAudioChunk defaultAudioSettings "alloy" [] (.bytes [1]) false true
      ⟨none, .error .transcriptionError, .error .responseGenerationError,
        fun _ _ => .error .apiError⟩
      = ([[1]], [.audioChunkReceived 1 false]) ∧
    handleAudioChunk defaultAudioSettings "alloy" [[1]] (.bytes [2]) true true
      ⟨none, .error .transcriptionError, .error .responseGenerationError,
        fun _ _ => .error .apiError⟩
      = ([], [.errorEvent (some .validationError),
          .audioChunkReceived 0 true]) ∧
    (0 : Nat) ≠ 2 ∧ ¬(1 : Nat) < 0 := by
  refine ⟨?_, ?_, by decide, by decide⟩ <;> rfl

/-- C6 amended: a well-formed `audio_chunk` is always acknowledged, and the
acknowledged `chunk_number` equals the number of chunks held in the
accumulator *after* the message is handled: the running count
(`previous + 1`) for a chunk that does not flush, but `0` for a final chunk
on a bound session, because the ack is sent after the flush clears the
accumulator.  Hence chunk numbers are strictly increasing precisely across
consecutive chunks that do not flush. -/
theorem c6_ack_equals_post_handling_accumulator_length (cfg : AudioSettings)
    (defVoice : String) (chunks : List (List Nat)) (bs : List Nat)
    (isFinal bound : Bool) (O : TurnOracles) :
    ((handleAudioChunk cfg defVoice chunks (.bytes bs) isFinal bound O).2).getLast?
        = some (.audioChunkReceived
            (handleAudioChunk cfg defVoice chunks (.bytes bs) isFinal bound O).1.length
            isFinal) ∧
    (¬(isFinal = true ∧ bound = true) →
      handleAudioChunk cfg defVoice chunks (.bytes bs) isFinal bound O
        = (chunks ++ [bs],
            [.audioChunkReceived (chunks.length + 1) isFinal])) ∧
    (isFinal = true → bound = true →
      handleAudioChunk cfg defVoice chunks (.bytes bs) isFinal bound O
        = ([], (processCompleteAudio cfg defVoice (chunks ++ [bs]).flatten O).1
            ++ [.audioChunkReceived 0 isFinal])) := by
  by_cases h : (isFinal && bound) = true
  · have hb := Bool.and_eq_true isFinal bound |>.mp h
    refine ⟨?_, ?_, ?_⟩
    · simp [handleAudioChunk, h]
    · intro hn
      exact absurd ⟨hb.1, hb.2⟩ hn
    · intro _ _
      simp [handleAudioChunk, h]
  · refine ⟨?_, ?_, ?_⟩
    · simp [handleAudioChunk, h]
    · intro _
      simp [handleAudioChunk, h]
    · intro h1 h2
      rw [h1, h2] at h
      simp at h

/-- C6 amended witness: two consecutive non-final chunks on a bound session
are acked with strictly increasing chunk numbers 1 and 2 (each the new
accumulator length). -/
theorem c6_ack_equals_post_handling_accumulator_length_witness :
    handleAudioChunk defaultAudioSettings "alloy" [] (.bytes [1]) false true
      ⟨none, .error .transcriptionError, .error .responseGenerationError,
        fun _ _ => .error .apiError⟩
      = ([[1]], [.audioChunkReceived 1 false]) ∧
    handleAudioChunk defaultAudioSettings "alloy" [[1]] (.bytes [2]) false true
      ⟨none, .error .transcriptionError, .error .responseGenerationError,
        fun _ _ => .error .apiError⟩
      = ([[1], [2]], [.audioChunkReceived 2 false]) ∧
    (1 : Nat) < 2 :=
  ⟨(c6_ack_equals_post_handling_accumulator_length defaultAudioSettings
      "alloy" [] [1] false true _).2.1 (by simp),
   (c6_ack_equals_post_handling_accumulator_length defaultAudioSettings
      "alloy" [[1]] [2] false true _).2.1 (by simp),
   by decide⟩

/-- In an association list with duplicate-free keys, a key determines its
value. -/
theorem assoc_key_unique {l : List (String × String)}
    (hnd : (l.map Prod.fst).Nodup) {s c1 c2 : String}
    (h1 : (s, c1) ∈ l) (h2 : (s, c2) ∈ l) : c1 = c2 := by
  induction l with
  | nil => cases h1
  | cons p t ih =>
    rw [List.map_cons, List.nodup_cons] at hnd
    rcases List.mem_cons.mp h1 with h1e | h1t
    · rcases List.mem_cons.mp h2 with h2e | h2t
      · rw [← h1e] at h2e
        exact (Prod.mk.injEq _ _ _ _).mp h2e.symm |>.2
      · exfalso
        apply hnd.1
        rw [← h1e]
        have hm := List.mem_map_of_mem Prod.fst h2t
        exact hm
    · rcases List.mem_cons.mp h2 with h2e | h2t
      · exfalso
        apply hnd.1
        rw [← h2e]
        have hm := List.mem_map_of_mem Prod.fst h1t
        exact hm
      · exact ih hnd.2 h1t h2t

/-- The keys of a Python dict after `d[k] = v`: unchanged if `k` was
present, otherwise extended by `k`. -/
theorem dictSet_map_fst (k v : String) (l : List (String × String)) :
    (dictSet k v l).map Prod.fst =
      if k ∈ l.map Prod.fst then l.map Prod.fst
      else l.map Prod.fst ++ [k] := by
  unfold dictSet
  split
  · rw [List.map_map]
    apply List.map_congr_left
    intro p _
    by_cases hp : p.1 = k
    · simp [hp]
    · simp [hp]
  · simp

/-- Every registry operation preserves duplicate-freeness of the
`session_connections` keys. -/
theorem applyOp_keys_nodup (r : Registry) (op : RegOp)
    (h : (r.sessConn.map Prod.fst).Nodup) :
    (((applyOp r op).sessConn).map Prod.fst).Nodup := by
  cases op with
  | connect c => exact h
  | initSession s c =>
    simp only [applyOp]
    rw [dictSet_map_fst]
    split
    · exact h
    · rw [List.nodup_append]
      refine ⟨h, List.nodup_singleton s, ?_⟩
      intro a ha hs
      rw [List.mem_singleton.mp hs] at ha
      exact absurd ha (by assumption)
  | disconnect c =>
    exact h.sublist ((List.filter_sublist _).map Prod.fst)

/-- After any operation sequence, the `session -> connection` table has
duplicate-free keys. -/
theorem runOps_keys_nodup (ops : List RegOp) :
    (((runOps ops).sessConn).map Prod.fst).Nodup := by
  have main : ∀ (l : List RegOp) (r : Registry),
      (r.sessConn.map Prod.fst).Nodup →
      (((l.foldl applyOp r).sessConn).map Prod.fst).Nodup := by
    intro l
    induction l with
    | nil => exact fun r h => h
    | cons op t ih => exact fun r h => ih _ (applyOp_keys_nodup r op h)
  exact main ops ⟨[], []⟩ (by simp)

/-- C4 counterexample: the reachable operation sequence connect `"c"`,
`initialize_session` twice on the same connection (creating fresh sessions
`"s1"` and `"s2"`) leaves two distinct sessions mapped to the one
connection `"c"` — a connection is not mapped to at most one session. -/
theorem c4_connection_mapped_by_two_sessions :
    ("s1", "c") ∈
        (runOps [.connect "c", .initSession "s1" "c",
          .initSession "s2" "c"]).sessConn ∧
    ("s2", "c") ∈
        (runOps [.connect "c", .initSession "s1" "c",
          .initSession "s2" "c"]).sessConn ∧
    "s1" ≠ "s2" := by
  refine ⟨?_, ?_, by decide⟩ <;> decide

/-- C4 amended: in every state reachable by connect / initialize_session /
disconnect operations, each *session* is referenced by at most one
connection (the `session_connections` dict keys stay duplicate-free); the
converse direction of the claim fails, since repeated `initialize_session`
messages map several sessions to the same connection without unbinding the
previous one. -/
theorem c4_session_bound_to_at_most_one_connection (ops : List RegOp)
    (s c1 c2 : String) (h1 : (s, c1) ∈ (runOps ops).sessConn)
    (h2 : (s, c2) ∈ (runOps ops).sessConn) : c1 = c2 :=
  assoc_key_unique (runOps_keys_nodup ops) h1 h2

/-- C4 amended witness: a concrete reachable registry state in which the
session-side uniqueness is checked at session `"s1"`. -/
theorem c4_session_bound_to_at_most_one_connection_witness :
    ("s1", "c") ∈ (runOps [.connect "c", .initSession "s1" "c"]).sessConn ∧
      "c" = "c" :=
  ⟨by decide,
   c4_session_bound_to_at_most_one_connection
     [.connect "c", .initSession "s1" "c"] "s1" "c" "c" (by decide)
     (by decide)⟩

/-- A successful `add_message` appends exactly the one new message row. -/
theorem addMessage_ok {st st' : Store} {sid : String} {role : Role}
    {content mid : String} {ts : Nat} {commitOk : Bool}
    (h : addMessage st sid role content mid ts commitOk = .ok st') :
    st' = { st with messages := st.messages ++ [⟨mid, sid, role, content, ts⟩] }
      := by
  unfold addMessage at h
  split at h
  · exact absurd h (by simp)
  · split at h
    · exact (Except.ok.inj h).symm
    · exact absurd h (by simp)

/-- C3 counterexample: the session exists, generation succeeds, the user
message commits, but the database fails the assistant-message commit
(`add_message` is two separate transactions).  The turn fails
(`RESPONSE_GENERATION_ERROR`) yet exactly one new `Message` — the user one —
remains in the store, not the claimed zero. -/
theorem c3_failed_turn_leaves_user_message :
    generateResponse ⟨10⟩ ⟨["s"], []⟩ "hi" "s" (fun _ => .ok "reply")
        "u1" "a1" 0 1 true false
      = (⟨["s"], [⟨"u1", "s", .user, "hi", 0⟩]⟩,
          .error .responseGenerationError) ∧
    ([(⟨"u1", "s", .user, "hi", 0⟩ : StoredMsg)] : List StoredMsg) ≠ [] := by
  exact ⟨rfl, by decide⟩

/-- C3 amended: when generation and both persistence commits succeed, the
turn appends exactly one user and one assistant `Message` (and returns the
assistant message id); when the generation call itself fails, zero new
`Message`s exist.  But persistence is not atomic with generation: if the
assistant-message commit fails after the user-message commit succeeded, the
turn fails while exactly the new user `Message` remains stored. -/
theorem c3_turn_persistence (cfg : SessionSettings) (st : Store)
    (message sid : String) (gpt : List PromptMsg → Except GenFail String)
    (uid aid : String) (ts1 ts2 : Nat) (cu ca : Bool) :
    (∀ stOut r,
      generateResponse cfg st message sid gpt uid aid ts1 ts2 cu ca
          = (stOut, .ok r) →
      stOut.messages = st.messages ++
          [⟨uid, sid, .user, message, ts1⟩,
           ⟨aid, sid, .assistant, r.1, ts2⟩] ∧ r.2 = aid) ∧
    (∀ f,
      gpt (buildMessages cfg (getConversationHistory cfg st sid none) message)
          = .error f →
      (generateResponse cfg st message sid gpt uid aid ts1 ts2 cu ca).1 = st) ∧
    (∀ reply, sid ∈ st.sessions → cu = true → ca = false →
      gpt (buildMessages cfg (getConversationHistory cfg st sid none) message)
          = .ok reply →
      generateResponse cfg st message sid gpt uid aid ts1 ts2 cu ca
        = ({ st with
              messages := st.messages ++ [⟨uid, sid, .user, message, ts1⟩] },
            .error .responseGenerationError)) := by
  refine ⟨?_, ?_, ?_⟩
  · intro stOut r h
    unfold generateResponse at h
    cases hg : gpt (buildMessages cfg (getConversationHistory cfg st sid none)
        message) with
    | error f =>
      simp only [hg] at h
      cases f <;> simp at h
    | ok reply =>
      simp only [hg] at h
      cases ha1 : addMessage st sid .user message uid ts1 cu with
      | error e =>
        simp only [ha1] at h
        simp at h
      | ok st1 =>
        simp only [ha1] at h
        cases ha2 : addMessage st1 sid .assistant reply aid ts2 ca with
        | error e =>
          simp only [ha2] at h
          simp at h
        | ok st2 =>
          simp only [ha2] at h
          obtain ⟨hst, hr⟩ := Prod.mk.inj h
          have hr' := Except.ok.inj hr
          rw [← hst, addMessage_ok ha2, addMessage_ok ha1, ← hr']
          constructor
          · simp
          · rfl
  · intro f hg
    unfold generateResponse
    rw [hg]
    cases f <;> rfl
  · intro reply hsid hcu hca hg
    subst hcu
    subst hca
    have h1 : addMessage st sid .user message uid ts1 true =
        .ok { st with
          messages := st.messages ++ [⟨uid, sid, .user, message, ts1⟩] } := by
      simp [addMessage, hsid]
    have h2 : addMessage
        { st with messages := st.messages ++ [⟨uid, sid, .user, message, ts1⟩] }
        sid .assistant reply aid ts2 false = .error .messageAdditionError := by
      simp [addMessage, hsid]
    unfold generateResponse
    rw [hg]
    simp only [h1, h2]

/-- C3 amended witness: a full success appends exactly the user and
assistant rows; a failing generation call leaves the store unchanged; a
failing assistant commit leaves exactly the user row. -/
theorem c3_turn_persistence_witness :
    ((⟨["s"], [⟨"u1", "s", .user, "hi", 0⟩,
        ⟨"a1", "s", .assistant, "reply", 1⟩]⟩ : Store).messages =
      (⟨["s"], []⟩ : Store).messages ++
        [⟨"u1", "s", .user, "hi", 0⟩, ⟨"a1", "s", .assistant, "reply", 1⟩] ∧
      ("reply", "a1").2 = "a1") ∧
    (generateResponse ⟨10⟩ ⟨["s"], []⟩ "hi" "s" (fun _ => .error .other)
        "u1" "a1" 0 1 true true).1 = (⟨["s"], []⟩ : Store) ∧
    generateResponse ⟨10⟩ ⟨["s"], []⟩ "hi" "s" (fun _ => .ok "reply")
        "u1" "a1" 0 1 true false
      = (⟨["s"], [⟨"u1", "s", .user, "hi", 0⟩]⟩,
          .error .responseGenerationError) :=
  ⟨(c3_turn_persistence ⟨10⟩ ⟨["s"], []⟩ "hi" "s" (fun _ => .ok "reply")
      "u1" "a1" 0 1 true true).1 _ ("reply", "a1") rfl,
   (c3_turn_persistence ⟨10⟩ ⟨["s"], []⟩ "hi" "s" (fun _ => .error .other)
      "u1" "a1" 0 1 true true).2.1 .other rfl,
   (c3_turn_persistence ⟨10⟩ ⟨["s"], []⟩ "hi" "s" (fun _ => .ok "reply")
      "u1" "a1" 0 1 true false).2.2 "reply" (by decide) rfl rfl rfl⟩

/-- C9: the bounded-history read returns at most the configured (or
caller-given) limit of messages in chronological order —
`history[i].timestamp <= history[i+1].timestamp` — the messages it omits
are no newer than every returned one (it keeps the most recent ones), and
appending a message only appends to the stored list, never reordering the
previously stored messages. -/
theorem c9_history_bounded_and_chronological (cfg : SessionSettings)
    (st : Store) (sid : String) (limit : Option Nat) (role : Role)
    (content mid : String) (ts : Nat) (commitOk : Bool) (st' : Store) :
    List.Sorted (fun a b : StoredMsg => a.timestamp ≤ b.timestamp)
        (getConversationHistory cfg st sid limit) ∧
    (getConversationHistory cfg st sid limit).length ≤ effLimit cfg limit ∧
    (∀ x ∈ sessionMessages st sid,
      x ∉ getConversationHistory cfg st sid limit →
      ∀ y ∈ getConversationHistory cfg st sid limit,
        x.timestamp ≤ y.timestamp) ∧
    (addMessage st sid role content mid ts commitOk = .ok st' →
      st'.messages = st.messages ++ [⟨mid, sid, role, content, ts⟩]) := by
  refine ⟨?_, ?_, ?_, ?_⟩
  · unfold getConversationHistory
    show List.Pairwise _ _
    rw [List.pairwise_reverse]
    exact ((List.sorted_insertionSort tsDesc _).sublist
      (List.take_sublist _ _))
  · unfold getConversationHistory
    rw [List.length_reverse, List.length_take]
    exact Nat.min_le_left _ _
  · intro x hx hnot y hy
    unfold getConversationHistory at hnot hy
    have hxS : x ∈ List.insertionSort tsDesc (sessionMessages st sid) :=
      (List.perm_insertionSort tsDesc _).mem_iff.mpr hx
    have hyT : y ∈ (List.insertionSort tsDesc
        (sessionMessages st sid)).take (effLimit cfg limit) :=
      List.mem_reverse.mp hy
    have hxnot : x ∉ (List.insertionSort tsDesc
        (sessionMessages st sid)).take (effLimit cfg limit) :=
      fun hc => hnot (List.mem_reverse.mpr hc)
    have hsplit : List.Pairwise tsDesc
        ((List.insertionSort tsDesc (sessionMessages st sid)).take
            (effLimit cfg limit) ++
          (List.insertionSort tsDesc (sessionMessages st sid)).drop
            (effLimit cfg limit)) := by
      rw [List.take_append_drop]
      exact List.sorted_insertionSort tsDesc _
    have hxdrop : x ∈ (List.insertionSort tsDesc
        (sessionMessages st sid)).drop (effLimit cfg limit) := by
      have hx2 := hxS
      rw [← List.take_append_drop (effLimit cfg limit)
        (List.insertionSort tsDesc (sessionMessages st sid))] at hx2
      rcases List.mem_append.mp hx2 with h | h
      · exact absurd h hxnot
      · exact h
    exact (List.pairwise_append.mp hsplit).2.2 y hyT x hxdrop
  · exact fun h => congrArg Store.messages (addMessage_ok h)

/-- C9 witness: a store holding messages with timestamps 5, 3, 9 under
session `"s"`, read with limit 2, returns `[5, 9]` (chronological, most
recent two); the omitted message (timestamp 3) is no newer; and an
`add_message` success is exactly an append. -/
theorem c9_history_bounded_and_chronological_witness :
    List.Sorted (fun a b : StoredMsg => a.timestamp ≤ b.timestamp)
        (getConversationHistory ⟨10⟩
          ⟨["s"], [⟨"m1", "s", .user, "a", 5⟩, ⟨"m2", "s", .assistant, "b", 3⟩,
            ⟨"m3", "s", .user, "c", 9⟩]⟩ "s" (some 2)) ∧
    (⟨"m2", "s", .assistant, "b", 3⟩ : StoredMsg).timestamp ≤
      (⟨"m1", "s", .user, "a", 5⟩ : StoredMsg).timestamp ∧
    (⟨["s"], [⟨"m1", "s", .user, "a", 5⟩, ⟨"u1", "s", .user, "hi", 7⟩]⟩
        : Store).messages =
      (⟨["s"], [⟨"m1", "s", .user, "a", 5⟩]⟩ : Store).messages ++
        [⟨"u1", "s", .user, "hi", 7⟩] :=
  ⟨(c9_history_bounded_and_chronological ⟨10⟩
      ⟨["s"], [⟨"m1", "s", .user, "a", 5⟩, ⟨"m2", "s", .assistant, "b", 3⟩,
        ⟨"m3", "s", .user, "c", 9⟩]⟩ "s" (some 2) .user "x" "y" 0 true
      ⟨["s"], []⟩).1,
   (c9_history_bounded_and_chronological ⟨10⟩
      ⟨["s"], [⟨"m1", "s", .user, "a", 5⟩, ⟨"m2", "s", .assistant, "b", 3⟩,
        ⟨"m3", "s", .user, "c", 9⟩]⟩ "s" (some 2) .user "x" "y" 0 true
      ⟨["s"], []⟩).2.2.1 ⟨"m2", "s", .assistant, "b", 3⟩ (by decide)
      (by decide) ⟨"m1", "s", .user, "a", 5⟩ (by decide),
   (c9_history_bounded_and_chronological ⟨10⟩
      ⟨["s"], [⟨"m1", "s", .user, "a", 5⟩]⟩ "s" none .user "hi" "u1" 7 true
      ⟨["s"], [⟨"m1", "s", .user, "a", 5⟩, ⟨"u1", "s", .user, "hi", 7⟩]⟩).2.2.2
      (by decide)⟩

/-- The value of a dyadic number via its mantissa at any coarser scale. -/
theorem Fp.toRat_eq_divInt_mAt (x : Fp) (e : Nat) (h : x.e ≤ e) :
    x.toRat = Rat.divInt (x.mAt e) ((2 ^ e : Nat) : Int) := by
  unfold Fp.toRat Fp.mAt
  have he : (2 ^ e : Nat) = 2 ^ x.e * 2 ^ (e - x.e) := by
    rw [← pow_add, Nat.add_sub_cancel' h]
  rw [he]
  push_cast
  rw [Rat.divInt_mul_right (by positivity)]

/-- `fpLt a b = true` implies the represented values satisfy `≤`. -/
theorem fpLt_true_le {a b : Fp} (h : fpLt a b = true) :
    a.toRat ≤ b.toRat := by
  have hm : a.mAt (max a.e b.e) < b.mAt (max a.e b.e) := of_decide_eq_true h
  rw [Fp.toRat_eq_divInt_mAt a (max a.e b.e) (Nat.le_max_left _ _),
    Fp.toRat_eq_divInt_mAt b (max a.e b.e) (Nat.le_max_right _ _)]
  rw [Rat.divInt_le_divInt (by positivity) (by positivity)]
  exact mul_le_mul_of_nonneg_right hm.le (by positivity)

/-- `fpLt a b = false` implies the represented values satisfy `≥`. -/
theorem fpLt_false_le {a b : Fp} (h : fpLt a b = false) :
    b.toRat ≤ a.toRat := by
  have hm : ¬a.mAt (max a.e b.e) < b.mAt (max a.e b.e) := of_decide_eq_false h
  rw [Fp.toRat_eq_divInt_mAt a (max a.e b.e) (Nat.le_max_left _ _),
    Fp.toRat_eq_divInt_mAt b (max a.e b.e) (Nat.le_max_right _ _)]
  rw [Rat.divInt_le_divInt (by positivity) (by positivity)]
  exact mul_le_mul_of_nonneg_right (Int.not_lt.mp hm) (by positivity)

/-- The represented value of the double `0.0`. -/
theorem fpZero_toRat : fpZero.toRat = 0 := rfl

/-- The represented value of the double `1.0`. -/
theorem fpOne_toRat : fpOne.toRat = 1 := by
  unfold fpOne Fp.toRat
  rw [Rat.divInt_eq_div]
  norm_num

/-- CPython `min(1.0, max(0.0, c))` lands in `[0, 1]` for every double. -/
theorem clamp_toRat_range (c : Fp) :
    0 ≤ (fpMin fpOne (fpMax fpZero c)).toRat ∧
      (fpMin fpOne (fpMax fpZero c)).toRat ≤ 1 := by
  have h0 : 0 ≤ (fpMax fpZero c).toRat := by
    unfold fpMax
    cases hc : fpLt fpZero c
    · rw [if_neg (by decide)]
      exact le_of_eq fpZero_toRat.symm
    · rw [if_pos rfl]
      calc (0 : ℚ) = fpZero.toRat := fpZero_toRat.symm
        _ ≤ c.toRat := fpLt_true_le hc
  unfold fpMin
  cases hm : fpLt (fpMax fpZero c) fpOne
  · rw [if_neg (by decide)]
    rw [fpOne_toRat]
    exact ⟨by norm_num, le_refl 1⟩
  · rw [if_pos rfl]
    refine ⟨h0, ?_⟩
    calc (fpMax fpZero c).toRat ≤ fpOne.toRat := fpLt_true_le hm
      _ = 1 := fpOne_toRat

/-- C5 counterexample: on the clean input — non-empty stripped text
`"hello"`, no low-confidence marker, rms energy 0.5 above the 0.01
threshold, silence ratio 0.0 below 0.5 — the estimator does *not* return
1.0: in Python float arithmetic
`0.5 + 0.2 + 0.1 + 0.1 + 0.1 == 0.9999999999999999`, one ulp below 1.0,
and `min(1.0, 0.9999999999999999)` keeps it. -/
theorem c5_clean_score_is_not_one :
    (estimateConfidence "hello" (some ⟨1, 1⟩) (some ⟨0, 0⟩)).toRat ≠ 1 ∧
    stripChars "hello".data ≠ [] ∧
    hasMarker "hello" = false ∧
    fpLt dbl001 ⟨1, 1⟩ = true ∧
    fpLt ⟨0, 0⟩ dbl05 = true := by
  refine ⟨?_, by decide, by decide, by decide, by decide⟩
  have he : estimateConfidence "hello" (some ⟨1, 1⟩) (some ⟨0, 0⟩) =
      ⟨9007199254740991, 53⟩ := by decide
  rw [he]
  unfold Fp.toRat
  rw [Rat.divInt_eq_div]
  push_cast
  norm_num

/-- C5 amended: the confidence policy is as claimed (base 0.5, the four
additive bonuses, clamp), each addition being an IEEE-754 double addition;
the score is always in [0.0, 1.0], but for non-empty clean text with strong
signal energy and low silence ratio it equals the double
0.9999999999999999 = 9007199254740991/2^53 (the float sum of
0.5+0.2+0.1+0.1+0.1), one ulp below — not exactly — 1.0. -/
theorem c5_confidence_range_and_clean_value (text : String)
    (rms silence : Option Fp) :
    (0 ≤ (estimateConfidence text rms silence).toRat ∧
      (estimateConfidence text rms silence).toRat ≤ 1) ∧
    (stripChars text.data ≠ [] → hasMarker text = false →
      fpLt dbl001 (rms.getD fpZero) = true →
      fpLt (silence.getD fpOne) dbl05 = true →
      (estimateConfidence text rms silence).toRat =
        9007199254740991 / 9007199254740992) := by
  constructor
  · unfold estimateConfidence
    exact clamp_toRat_range _
  · intro h1 h2 h3 h4
    simp only [estimateConfidence]
    rw [if_pos h1, if_pos (show ¬hasMarker text = true by rw [h2]; decide),
      if_pos h3, if_pos h4]
    have hc : fadd (fadd (fadd (fadd dbl05 dbl02) dbl01) dbl01) dbl01 =
        ⟨9007199254740991, 53⟩ := by decide
    rw [hc]
    have hclamp : fpMin fpOne (fpMax fpZero ⟨9007199254740991, 53⟩) =
        (⟨9007199254740991, 53⟩ : Fp) := by decide
    rw [hclamp]
    unfold Fp.toRat
    rw [Rat.divInt_eq_div]
    push_cast
    norm_num

/-- C5 amended witness: the clean input `"hello"` with rms 0.5 and silence
ratio 0.0 satisfies every bonus condition; the score is in range and equals
9007199254740991/9007199254740992. -/
theorem c5_confidence_range_and_clean_value_witness :
    (0 ≤ (estimateConfidence "hello" (some ⟨1, 1⟩) (some ⟨0, 0⟩)).toRat ∧
      (estimateConfidence "hello" (some ⟨1, 1⟩) (some ⟨0, 0⟩)).toRat ≤ 1) ∧
    (estimateConfidence "hello" (some ⟨1, 1⟩) (some ⟨0, 0⟩)).toRat =
      9007199254740991 / 9007199254740992 :=
  ⟨(c5_confidence_range_and_clean_value "hello" (some ⟨1, 1⟩)
      (some ⟨0, 0⟩)).1,
   (c5_confidence_range_and_clean_value "hello" (some ⟨1, 1⟩)
      (some ⟨0, 0⟩)).2 (by decide) (by decide) (by decide) (by decide)⟩
